import Mathlib

/-!
Verification development for the Diario-IA serverless functions.

The TypeScript sources are shallowly embedded as Lean functions.  External
collaborators (the OpenAI provider, the Supabase store, the network `fetch`)
are modelled by their observable outcomes, which are supplied as explicit
inputs of the embedded handlers:

* a provider promise is described by how long it takes to settle (`dur`, in
  milliseconds) and by what it settles to (`RawResult`);
* a string that the code passes to `JSON.parse` is described by the outcome
  of that parse (`none` when `JSON.parse` throws, `some j` when it yields
  the JSON value `j`);
* a store read or write is described by whether it errors, and by the data
  it returns.

Handlers are embedded as total functions from such environments to a record
of the HTTP response plus the externally visible effects (store writes,
whether the provider was called, whether the cascade was dispatched).
-/

namespace Diario

/-- JSON values, the data exchanged with the provider and the store. -/
inductive Json where
  | null
  | bool (b : Bool)
  | num (n : Int)
  | str (s : String)
  | arr (elems : List Json)
  | obj (fields : List (String × Json))

/-- JavaScript truthiness of a JSON value (`!!v`):
null, `false`, `0` and the empty string are falsy; objects and arrays
are always truthy. -/
def Json.jsTruthy : Json → Bool
  | .null => false
  | .bool b => b
  | .num n => n != 0
  | .str s => s != ""
  | .arr _ => true
  | .obj _ => true

/-- `hasKeys` from part_000 line 19:
`!!o && typeof o === 'object' && Object.keys(o).length > 0`.
Only objects and arrays have `typeof === 'object'` (and a non-null value);
`Object.keys` of an array is its list of indices. -/
def hasKeys : Json → Bool
  | .obj fields => !fields.isEmpty
  | .arr elems => !elems.isEmpty
  | _ => false

/-- The JavaScript test `a % b === 0` on numbers: when `b = 0` the
remainder is `NaN`, which is not `=== 0`. -/
def jsModEqZero (a b : Nat) : Bool := b != 0 && a % b == 0

/-! ## part_000 — forza-analisi (item analysis handler)

`askGPT` wraps every OpenAI chat call in `withRetry(withTimeout(call, 45000), 1)`.
An attempt of the underlying promise is modelled by its settle time and its
settlement. -/

/-- Settlement of one `openai.chat.completions.create` promise:
`fail` is a rejection (provider error); `ok c` is a resolution whose message
content is modelled by its parse outcome — `none` when the content field is
absent or empty (part_000 then substitutes the two-character empty-object
string), `some none` when it is present but `JSON.parse` throws, and
`some (some j)` when it parses to the JSON value `j`. -/
inductive RawResult where
  | fail
  | ok (content : Option (Option Json))

/-- One invocation of the wrapped provider call: how many milliseconds the
promise takes to settle, and what it settles to. -/
structure Attempt where
  dur : Nat
  raw : RawResult

/-- `withTimeout` from part_000 line 21: races the promise against a timer
that rejects after `ms` milliseconds.  If the promise has not settled before
the timer fires, the race rejects. -/
def withTimeout (a : Attempt) (ms : Nat) : RawResult :=
  if ms ≤ a.dur then .fail else a.raw

/-- `withRetry` from part_000 line 26: run `fn`; on a rejection, retry while
retries remain, otherwise rethrow.  `fn k` is the outcome of the k-th
invocation of `fn`; `Except.error` is the rethrown rejection. -/
def withRetry (fn : Nat → RawResult) (k retries : Nat) :
    Except Unit (Option (Option Json)) :=
  match fn k with
  | .ok c => .ok c
  | .fail =>
    match retries with
    | 0 => .error ()
    | r + 1 => withRetry fn (k + 1) r

/-- The timeout part_000 line 63 passes to `withTimeout` (45 s). -/
def askGPTTimeoutMs : Nat := 45000

/-- part_000 lines 66-67: the resolved content, defaulted to the
empty-object string when absent, then `JSON.parse` with a catch that
returns the empty object. -/
def parseContent : Option (Option Json) → Json
  | none => .obj []
  | some none => .obj []
  | some (some j) => j

/-- `askGPT` from part_000 lines 56-68: one retry around a 45 s timeout;
a rejection surviving both attempts propagates (`Except.error`); resolved
content degrades to the empty object when absent or unparseable. -/
def askGPT (attempts : Nat → Attempt) : Except Unit Json :=
  match withRetry (fun k => withTimeout (attempts k) askGPTTimeoutMs) 0 1 with
  | .error e => .error e
  | .ok c => .ok (parseContent c)

/-- Outcome of a `fetch` to another function: `reject` is a network error
(the promise rejects); `resolve status bodyParse` is a response with the
given HTTP status whose `r.json()` outcome is `bodyParse` (`none` when the
body is not valid JSON). -/
inductive FetchOutcome where
  | reject
  | resolve (status : Nat) (bodyParse : Option Json)

/-- Whether a fetch outcome is a rejection. -/
def fetchRejects : FetchOutcome → Bool
  | .reject => true
  | .resolve _ _ => false

/-- Environment of the part_000 handler: the request fields after the
`body.x || body.y` fallbacks (an absent field and an empty string both
yield the empty string here), and the outcomes of the external calls in
program order. -/
structure Env000 where
  authorId : String
  poemId : String
  title : String
  poemText : String
  upsertErr : Bool
  psico : Nat → Attempt
  letterario : Nat → Attempt
  profilo : Nat → Attempt
  updateErr : Bool
  count : Nat
  countErr : Bool
  minPoems : Nat
  cascadeFetch : FetchOutcome

/-- Observable outcome of the part_000 handler: the HTTP status, the
response flags, and the effects (whether the three analyses were written to
the poem row, whether the cascade fetch was dispatched). -/
structure Out000 where
  status : Nat
  ok : Bool
  savedPsico : Bool
  savedLett : Bool
  savedProf : Bool
  poemsCount : Nat
  journalTriggered : Bool
  cascadeDispatched : Bool
  analysesWritten : Option (Json × Json × Json)

/-- A failure response of the part_000 handler (no fields reported). -/
def errOut000 (status : Nat) (dispatched : Bool)
    (written : Option (Json × Json × Json)) : Out000 :=
  { status := status, ok := false, savedPsico := false, savedLett := false,
    savedProf := false, poemsCount := 0, journalTriggered := false,
    cascadeDispatched := dispatched, analysesWritten := written }

/-- The cascade condition of part_000 line 124:
`!countErr && poemsCount >= MIN_POEMS_TO_UPDATE && poemsCount % MIN_POEMS_TO_UPDATE === 0`. -/
def cascadeCond (countErr : Bool) (count minPoems : Nat) : Bool :=
  !countErr && decide (minPoems ≤ count) && jsModEqZero count minPoems

/-- The part_000 handler (lines 73-163).  Validation failures return 400;
a failed upsert or analysis update returns 500; the three `askGPT` calls
run under `Promise.all`, so a rejection of any of them reaches the
top-level catch (500); when the cascade condition holds the journal fetch
is awaited, and its rejection also reaches the top-level catch. -/
def handler000 (e : Env000) : Out000 :=
  if e.authorId == "" then errOut000 400 false none
  else if e.poemId == "" then errOut000 400 false none
  else if e.poemText == "" then errOut000 400 false none
  else if e.upsertErr then errOut000 500 false none
  else
    match askGPT e.psico, askGPT e.letterario, askGPT e.profilo with
    | .ok ap, .ok al, .ok pp =>
      if e.updateErr then errOut000 500 false none
      else
        let trig := cascadeCond e.countErr e.count e.minPoems
        if trig then
          match e.cascadeFetch with
          | .reject => errOut000 500 true (some (ap, al, pp))
          | .resolve _ _ =>
            { status := 200, ok := true, savedPsico := hasKeys ap,
              savedLett := hasKeys al, savedProf := hasKeys pp,
              poemsCount := e.count, journalTriggered := true,
              cascadeDispatched := true, analysesWritten := some (ap, al, pp) }
        else
          { status := 200, ok := true, savedPsico := hasKeys ap,
            savedLett := hasKeys al, savedProf := hasKeys pp,
            poemsCount := e.count, journalTriggered := false,
            cascadeDispatched := false, analysesWritten := some (ap, al, pp) }
    | _, _, _ => errOut000 500 false none

/-! ## netlify/functions/forza-analisi/index.ts

Another deployed version of the item-analysis handler.  Its cascade helper
`maybeTriggerJournal` (lines 162-190) gates on a valid author UUID, the
threshold, and a configured backend base URL — with no multiple-of-threshold
condition — and catches the fetch failure itself. -/

/-- Result record of `maybeTriggerJournal`. -/
structure TriggerRes where
  triggered : Bool
  reason : Option String
  status : Option Nat
  out : Option Json

/-- `maybeTriggerJournal` from forza-analisi/index.ts lines 162-190.
`isUuidAuthor` models `isUuid(authorId)`; `backendBase` whether
`PUBLIC_BASE_URL` is configured; `fetch` the outcome of the POST to
aggiorna-journal, whose rejection is caught and reported as
`fetch_error`. -/
def maybeTriggerJournal (isUuidAuthor : Bool) (poemsCount minPoems : Nat)
    (backendBase : Bool) (fetch : FetchOutcome) : TriggerRes :=
  if !isUuidAuthor then ⟨false, some "invalid_author", none, none⟩
  else if poemsCount < minPoems then ⟨false, some "threshold", none, none⟩
  else if !backendBase then ⟨false, some "no_backend_base", none, none⟩
  else
    match fetch with
    | .reject => ⟨false, some "fetch_error", none, none⟩
    | .resolve st b => ⟨true, none, some st, some (b.getD (Json.obj []))⟩

/-- Environment of the forza-analisi/index.ts handler (lines 197-278).
The per-step store and provider outcomes are supplied in program order;
`isUuidAuthor` is the value of `isUuid(authorId)`.  The OpenAI response
content does not influence the status (an unparseable response is folded
into fallback blocks inside `analyzePoemWithOpenAI`), so only whether the
call throws is modelled. -/
structure EnvIdx where
  poemId : String
  authorId : String
  isUuidAuthor : Bool
  title : String
  content : String
  isWebhook : Bool
  dryRun : Bool
  upsertThrow : Bool
  providerThrow : Bool
  updateThrow : Bool
  countThrow : Bool
  count : Nat
  minPoems : Nat
  backendBase : Bool
  fetch : FetchOutcome

/-- Observable outcome of the forza-analisi/index.ts handler. -/
structure OutIdx where
  status : Nat
  ok : Bool
  poemsCount : Nat
  journal : Option TriggerRes

/-- The forza-analisi/index.ts handler (lines 197-278).  The manual-mode
upsert runs only when some of title, content or author id is present; a
thrown store or provider call reaches the top-level catch (500); the
poem count is read only for a valid author UUID; `maybeTriggerJournal`
never throws, so after a successful update the handler always answers
200. -/
def handlerIdx (e : EnvIdx) : OutIdx :=
  let uuidOk := e.authorId != "" && e.isUuidAuthor
  if e.poemId == "" then ⟨400, false, 0, none⟩
  else if !e.isWebhook && (e.title != "" || e.content != "" || e.authorId != "")
      && e.upsertThrow then ⟨500, false, 0, none⟩
  else if !e.dryRun && e.providerThrow then ⟨500, false, 0, none⟩
  else if e.updateThrow then ⟨500, false, 0, none⟩
  else if uuidOk && e.countThrow then ⟨500, false, 0, none⟩
  else
    let cnt := if uuidOk then e.count else 0
    ⟨200, true, cnt,
      some (maybeTriggerJournal e.isUuidAuthor cnt e.minPoems e.backendBase e.fetch)⟩

/-! ## part_004 — aggiorna-journal (group synthesis handler)

Embedding of the handler in part_004 lines 334-589 (the same threshold
check appears at lines 398-425 and the provider-with-fallback step at
lines 500-563). -/

/-- `safeJson` from part_004 lines 286-290, applied to the provider's
message content string: `none` models a nullish or empty content (the
function returns null immediately), `some none` a content on which
`JSON.parse` throws (caught, null), `some (some j)` a content parsing to
`j`. -/
def safeJson : Option (Option Json) → Option Json
  | none => none
  | some none => none
  | some (some j) => some j

/-- The canned fallback journal of part_004 lines 519-530, with
`ultimo_aggiornamento_iso` set to the current ISO timestamp. -/
def fallbackJournal (nowIso : String) : Json :=
  .obj [("descrizione_autore", .str "Profilo in aggiornamento."),
        ("profilo_poetico",
          .obj [("voce", .str ""), ("stile", .str ""), ("tono", .str ""),
                ("temi_ricorrenti", .arr []),
                ("immagini_metafore_tipiche", .arr []),
                ("influenze_letterarie", .arr [])]),
        ("ultimo_aggiornamento_iso", .str nowIso)]

/-- Field lookup in a JSON object (first binding wins), `none` on
non-objects. -/
def getField (j : Json) (key : String) : Option Json :=
  match j with
  | .obj fields => (fields.find? (fun p => p.fst == key)).map (fun p => p.snd)
  | _ => none

/-- Whether an optional field is a JSON string. -/
def isStrField : Option Json → Bool
  | some (.str _) => true
  | _ => false

/-- Whether an optional field is a JSON array of strings. -/
def isStrArrField : Option Json → Bool
  | some (.arr elems) =>
    elems.all (fun x => match x with | .str _ => true | _ => false)
  | _ => false

/-- The fixed journal schema demanded by `promptDiario`
(part_004 lines 313-326): `descrizione_autore` a string,
`profilo_poetico` an object of three strings and three string arrays,
`ultimo_aggiornamento_iso` a string. -/
def journalWellFormed (j : Json) : Bool :=
  isStrField (getField j "descrizione_autore") &&
  (match getField j "profilo_poetico" with
   | some p =>
     isStrField (getField p "voce") && isStrField (getField p "stile") &&
     isStrField (getField p "tono") &&
     isStrArrField (getField p "temi_ricorrenti") &&
     isStrArrField (getField p "immagini_metafore_tipiche") &&
     isStrArrField (getField p "influenze_letterarie")
   | none => false) &&
  isStrField (getField j "ultimo_aggiornamento_iso")

/-- Outcome of the single `AnalysisProvider.synthesize` call of part_004:
`throw` when the completion promise rejects, `ok c` when it resolves with
message content `c` (modelled by its parse outcome as in `safeJson`). -/
inductive ProviderCall where
  | throw
  | ok (content : Option (Option Json))

/-- Step 5 of the part_004 handler (lines 500-532): the provider call with
its catch, then the falsiness check that substitutes the canned fallback. -/
def synthesisJournal (p : ProviderCall) (nowIso : String) : Json :=
  let diario : Option Json :=
    match p with
    | .throw => none
    | .ok c => safeJson c
  match diario with
  | some j => if j.jsTruthy then j else fallbackJournal nowIso
  | none => fallbackJournal nowIso

/-- Environment of the part_004 handler: resolved author id (empty string
when absent), store outcomes in program order, the provider outcome, and
the two `new Date().toISOString()` readings (fallback timestamp and
update timestamp). -/
structure Env004 where
  authorId : String
  dryRun : Bool
  countThrow : Bool
  count : Option Nat
  minPoems : Nat
  poemsThrow : Bool
  poemsLen : Nat
  hasQrColumn : Bool
  existingQr : Option String
  previous : Option Json
  provider : ProviderCall
  publicBase : Bool
  qrGen : Option String
  updThrow : Bool
  nowFallback : String
  nowUpdate : String

/-- Observable outcome of the part_004 handler: status, the `triggered`
flag and `reason` of the response body, whether the provider was called,
the `profiles` update that was issued (journal, `last_updated` timestamp,
optional QR), and the journal echoed in the response. -/
structure Out004 where
  status : Nat
  triggered : Option Bool
  reason : Option String
  providerCalled : Bool
  updateCall : Option (Json × String × Option String)
  diario : Option Json
  qrGenerated : Bool

/-- The not-enough-poems reason string of part_004 line 419. -/
def notEnoughReason (c m : Nat) : String :=
  "Soglia non raggiunta (" ++ toString c ++ "/" ++ toString m ++ ")"

/-- The part_004 handler (lines 334-589).  A missing author id is a 400;
a failed count or poems query throws (500); a count below the threshold
returns 200 with `triggered:false` before any provider call or write; an
empty poem list is a 404; `dry_run` stops before the provider; otherwise
the journal is computed by `synthesisJournal` and the `profiles` update is
issued with it and `new Date().toISOString()` (a failed update throws
after the call was issued). -/
def handler004 (e : Env004) : Out004 :=
  if e.authorId == "" then ⟨400, none, none, false, none, none, false⟩
  else if e.countThrow then ⟨500, none, none, false, none, none, false⟩
  else if e.count.getD 0 < e.minPoems then
    ⟨200, some false, some (notEnoughReason (e.count.getD 0) e.minPoems),
      false, none, none, false⟩
  else if e.poemsThrow then ⟨500, none, none, false, none, none, false⟩
  else if e.poemsLen == 0 then ⟨404, none, none, false, none, none, false⟩
  else if e.dryRun then ⟨200, none, none, false, none, none, false⟩
  else
    let diario := synthesisJournal e.provider e.nowFallback
    let qrToSave : Option String :=
      if e.hasQrColumn && e.publicBase && e.existingQr.isNone then e.qrGen
      else none
    let upd := some (diario, e.nowUpdate, qrToSave)
    if e.updThrow then ⟨500, none, none, true, upd, none, false⟩
    else ⟨200, some true, none, true, upd, some diario, qrToSave.isSome⟩

/-! ## rebuild-journal (backfill orchestrator)

Embedding of netlify/functions/rebuild-journal/index.ts. -/

/-- `hoursToMs` from rebuild-journal line 18. -/
def hoursToMs (h : Nat) : Nat := h * 60 * 60 * 1000

/-- `msSince` from rebuild-journal lines 13-17.  `parsed` models
`new Date(iso).getTime()`: `none` when `iso` is absent or the date is
unparseable (`NaN`); the function's `Infinity` result is modelled as
`none`, a finite elapsed time as `some (now - t)`. -/
def msSince (now : Int) (parsed : Option Int) : Option Int :=
  match parsed with
  | none => none
  | some t => some (now - t)

/-- The comparison `msSince(...) > cutoffMs` of line 58, where the
`Infinity` of an absent or unparseable timestamp exceeds every cutoff. -/
def elapsedExceeds : Option Int → Int → Bool
  | none, _ => true
  | some ms, cutoff => cutoff < ms

/-- The cooldown filter of rebuild-journal line 58:
`authors.filter((id) => force || msSince(updatedMap[id]) > cutoffMs)`. -/
def eligibleFilter (force : Bool) (now cutoffMs : Int)
    (updatedMap : String → Option Int) (authors : List String) : List String :=
  authors.filter (fun id => force || elapsedExceeds (msSince now (updatedMap id)) cutoffMs)

/-- One entry of the skipped list (lines 59-61). -/
structure SkipEntry where
  authorId : String
  reason : String
  lastUpdate : Option Int
deriving DecidableEq

/-- The skipped list of rebuild-journal lines 59-61: the discovered
authors not kept by the cooldown filter, each recorded with reason
cooldown and its last-update value. -/
def skippedList (force : Bool) (now cutoffMs : Int)
    (updatedMap : String → Option Int) (authors : List String) : List SkipEntry :=
  (authors.filter
      (fun id => !((eligibleFilter force now cutoffMs updatedMap authors).contains id))).map
    (fun id => ⟨id, "cooldown", updatedMap id⟩)

/-- Outcome of one `triggerJournal` fetch (lines 20-32): `reject` is a
network error (the promise rejects); `resolve status ms body` is a
response with the given HTTP status, observed latency `ms`, and `r.json()`
outcome `body` (`none` when the body is not valid JSON, which the code
catches into an empty object). -/
inductive TriggerOut where
  | reject
  | resolve (status : Nat) (ms : Nat) (body : Option Json)

/-- One recorded per-author result.  `ms = none` models the catch-path
record of line 86, which carries no `ms` field (later read as `0` by the
`r.ms || 0` of line 95). -/
structure RJResult where
  authorId : String
  status : Nat
  ms : Option Nat
  body : Option Json
  caughtError : Bool

/-- The result a worker records for one queue element (lines 80-88): the
`triggerJournal` record on resolution, or the caught-error record
`{author_id, status: 500, error}` on rejection. -/
def workerEntry (outcomes : String → TriggerOut) (id : String) : RJResult :=
  match outcomes id with
  | .reject => ⟨id, 500, none, none, true⟩
  | .resolve st ms b => ⟨id, st, some ms, some (b.getD (Json.obj [])), false⟩

/-- `Math.round(num / den)` on non-negative numbers (line 103). -/
def jsRound (num den : Nat) : Nat := (2 * num + den) / (2 * den)

/-- Environment of the rebuild-journal handler: the optional single
author, the force flag, the discovery outcome, the per-author
`diario_updated_at` map (as parsed epoch milliseconds), the clock, the
cooldown, and per-author synthesis outcomes. -/
structure EnvRJ where
  single : Option String
  force : Bool
  discoveryErr : Option String
  authors : List String
  updatedMap : String → Option Int
  now : Int
  cooldownHours : Nat
  outcomes : String → TriggerOut

/-- Observable outcome of the rebuild-journal handler. -/
structure OutRJ where
  status : Nat
  ok : Bool
  processed : Option Nat
  okCount : Option Nat
  avgMs : Option Nat
  skipped : List SkipEntry
  results : List RJResult
  singleResult : Option RJResult

/-- The rebuild-journal handler (lines 34-113).  The single-author path
awaits `triggerJournal` outside any try/catch, so its rejection reaches
the top-level catch (500).  In the discovery path a failed discovery is a
500; otherwise the cooldown filter is applied and each eligible author
yields exactly one result entry — the worker pool pops each queue element
once (see `PoolStep`), so the result multiset is that of
`toProcess.map (workerEntry outcomes)`, which this embedding uses
directly. -/
def handlerRJ (e : EnvRJ) : OutRJ :=
  match e.single with
  | some a =>
    match e.outcomes a with
    | .reject => ⟨500, false, none, none, none, [], [], none⟩
    | .resolve st ms b =>
      ⟨200, st == 200, none, none, none, [], [],
        some ⟨a, st, some ms, some (b.getD (Json.obj [])), false⟩⟩
  | none =>
    match e.discoveryErr with
    | some _ => ⟨500, false, none, none, none, [], [], none⟩
    | none =>
      if e.authors.isEmpty then ⟨200, true, some 0, none, none, [], [], none⟩
      else
        let cutoff : Int := (hoursToMs e.cooldownHours : Nat)
        let toProcess := eligibleFilter e.force e.now cutoff e.updatedMap e.authors
        let skipped := skippedList e.force e.now cutoff e.updatedMap e.authors
        if toProcess.isEmpty then
          ⟨200, true, some 0, none, none, skipped, [], none⟩
        else
          let results := toProcess.map (workerEntry e.outcomes)
          let okCount := (results.filter (fun r => r.status == 200)).length
          let totalMs := (results.map (fun r => r.ms.getD 0)).sum
          ⟨200, true, some results.length, some okCount,
            some (if results.length == 0 then 0 else jsRound totalMs results.length),
            skipped, results, none⟩

/-! ## The bounded worker pool of rebuild-journal lines 76-92

`Math.min(CONCURRENCY, toProcess.length)` workers each loop
`while (queue.length) { const id = queue.shift(); await trigger(id) }`.
`queue.shift()` is synchronous, so taking an element and starting to work
on it is one atomic step.  Workers are interchangeable, so a pool state
tracks the remaining queue, the multiset of in-flight elements, the number
of idle workers, and the finished elements. -/

/-- A state of the worker pool. -/
structure Pool where
  queue : List String
  inflight : List String
  idle : Nat
  done : List String
deriving DecidableEq

/-- The initial pool state: the eligible groups in the queue and
`Math.min(CONCURRENCY, toProcess.length)` idle workers (line 91). -/
def Pool.init (conc : Nat) (groups : List String) : Pool :=
  ⟨groups, [], min conc groups.length, []⟩

/-- One scheduler step: an idle worker pops the queue head and starts it,
or an in-flight call settles and its worker records the result and goes
idle. -/
inductive PoolStep : Pool → Pool → Prop where
  | take (a : String) (q infl : List String) (k : Nat) (d : List String) :
      PoolStep ⟨a :: q, infl, k + 1, d⟩ ⟨q, a :: infl, k, d⟩
  | finish (q l1 l2 : List String) (a : String) (k : Nat) (d : List String) :
      PoolStep ⟨q, l1 ++ a :: l2, k, d⟩ ⟨q, l1 ++ l2, k + 1, a :: d⟩

/-- Reachability of pool states from a start state. -/
inductive PoolReach (s0 : Pool) : Pool → Prop where
  | refl : PoolReach s0 s0
  | step {s t : Pool} : PoolReach s0 s → PoolStep s t → PoolReach s0 t

/-! ## part_002 — supabaseClient (Item store, `upsertPoemMinimal`) -/

/-- One row of the `poesie` table, with the columns `upsertPoemMinimal`
writes: `id`, the dynamic author column, `titolo`, `testo`, `updated_at`. -/
structure PoemRow where
  id : String
  author : String
  titolo : Option String
  testo : Option String
  updatedAt : String
deriving DecidableEq

/-- Modelled from the spec: `ContentStore.upsertItem`, the Supabase
`.upsert(data, { onConflict: 'id' })` issued by `upsertPoemMinimal`
(part_002 line 141).  The store itself is an external collaborator not in
src/; per the spec the upsert is keyed by the item id: it overwrites the
row with the same id when one exists and inserts the row otherwise, never
duplicating. -/
def storeUpsert (store : List PoemRow) (r : PoemRow) : List PoemRow :=
  if store.any (fun s => s.id == r.id) then
    store.map (fun s => if s.id == r.id then r else s)
  else store ++ [r]

/-- `upsertPoemMinimal` from part_002 lines 129-142: builds the row
`{id, titolo: title ?? null, testo: text ?? null, updated_at: now,
[POEMS_AUTHOR_COLUMN]: authorId}` and upserts it on conflict with `id`. -/
def upsertPoemMinimal (store : List PoemRow) (poemId authorId : String)
    (title text : Option String) (nowIso : String) : List PoemRow :=
  storeUpsert store ⟨poemId, authorId, title, text, nowIso⟩

/-- The rows of the store carrying a given item id. -/
def rowsWithId (store : List PoemRow) (i : String) : List PoemRow :=
  store.filter (fun s => s.id == i)

/-! ## Concrete environments used by counterexamples and witnesses -/

/-- An attempt that resolves instantly with a parsed one-key object. -/
def okAttempt : Nat → Attempt :=
  fun _ => ⟨0, .ok (some (some (.obj [("k", .str "v")])))⟩

/-- An attempt stream that always rejects (provider error on both tries). -/
def failAttempt : Nat → Attempt := fun _ => ⟨0, .fail⟩

/-- An attempt that resolves with unparseable content. -/
def unparseableAttempt : Nat → Attempt := fun _ => ⟨0, .ok (some none)⟩

/-- part_000 environment in which both attempts of the first analysis task
fail while everything else succeeds; the cascade condition does not hold. -/
def envC3 : Env000 :=
  { authorId := "a1", poemId := "p1", title := "t", poemText := "x",
    upsertErr := false, psico := failAttempt, letterario := okAttempt,
    profilo := okAttempt, updateErr := false, count := 1, countErr := false,
    minPoems := 3, cascadeFetch := .resolve 200 none }

/-- part_000 environment in which the cascade condition holds (count 3,
threshold 3) and the cascade fetch rejects with a network error; all
other steps succeed. -/
def envC4 : Env000 :=
  { authorId := "a1", poemId := "p1", title := "t", poemText := "x",
    upsertErr := false, psico := okAttempt, letterario := okAttempt,
    profilo := okAttempt, updateErr := false, count := 3, countErr := false,
    minPoems := 3, cascadeFetch := .reject }

/-- part_000 environment in which the first task resolves with
unparseable content and everything else succeeds. -/
def envC10 : Env000 :=
  { authorId := "a1", poemId := "p1", title := "t", poemText := "x",
    upsertErr := false, psico := unparseableAttempt, letterario := okAttempt,
    profilo := okAttempt, updateErr := false, count := 1, countErr := false,
    minPoems := 3, cascadeFetch := .resolve 200 none }

/-- part_004 environment in which the provider call throws and every
store step succeeds, with four poems against a threshold of three. -/
def envC2 : Env004 :=
  { authorId := "a1", dryRun := false, countThrow := false, count := some 4,
    minPoems := 3, poemsThrow := false, poemsLen := 4, hasQrColumn := true,
    existingQr := none, previous := none, provider := .throw,
    publicBase := false, qrGen := none, updThrow := false,
    nowFallback := "2026-01-01T00:00:00Z", nowUpdate := "2026-01-01T00:00:01Z" }

/-- part_004 environment with a valid author and two poems against a
threshold of three. -/
def envC8 : Env004 :=
  { authorId := "a1", dryRun := false, countThrow := false, count := some 2,
    minPoems := 3, poemsThrow := false, poemsLen := 2, hasQrColumn := true,
    existingQr := none, previous := none, provider := .throw,
    publicBase := true, qrGen := some "qr", updThrow := false,
    nowFallback := "2026-01-01T00:00:00Z", nowUpdate := "2026-01-01T00:00:01Z" }

/-- rebuild-journal environment of a single-author run whose synthesis
fetch rejects while discovery would have succeeded. -/
def envC6 : EnvRJ :=
  { single := some "a1", force := false, discoveryErr := none,
    authors := ["a1"], updatedMap := fun _ => none, now := 1000000,
    cooldownHours := 24, outcomes := fun _ => .reject }

/-- rebuild-journal discovery-path environment: two authors, one updated a
minute ago (skipped by the 24 h cooldown) and one never updated, whose
synthesis resolves. -/
def envC5 : EnvRJ :=
  { single := none, force := false, discoveryErr := none,
    authors := ["fresh", "stale"],
    updatedMap := fun id => if id == "fresh" then some 99940000 else none,
    now := 100000000, cooldownHours := 24,
    outcomes := fun _ => .resolve 200 7 none }

/-- part_000 environment in which every external call succeeds, the count
is 3 and the threshold 3 (cascade condition holds, fetch resolves). -/
def envBenign : Env000 :=
  { authorId := "a1", poemId := "p1", title := "t", poemText := "x",
    upsertErr := false, psico := okAttempt, letterario := okAttempt,
    profilo := okAttempt, updateErr := false, count := 3, countErr := false,
    minPoems := 3, cascadeFetch := .resolve 200 (some (.obj [])) }

/-- forza-analisi/index.ts environment with four poems against a
threshold of three, a valid author UUID, a configured backend, and a
cascade fetch that resolves. -/
def envIdxFour : EnvIdx :=
  { poemId := "p1", authorId := "u1", isUuidAuthor := true, title := "t",
    content := "x", isWebhook := false, dryRun := false, upsertThrow := false,
    providerThrow := false, updateThrow := false, countThrow := false,
    count := 4, minPoems := 3, backendBase := true,
    fetch := .resolve 200 (some (.obj [])) }

/-- forza-analisi/index.ts environment identical to `envIdxFour` except
that the cascade fetch rejects with a network error. -/
def envIdxReject : EnvIdx :=
  { poemId := "p1", authorId := "u1", isUuidAuthor := true, title := "t",
    content := "x", isWebhook := false, dryRun := false, upsertThrow := false,
    providerThrow := false, updateThrow := false, countThrow := false,
    count := 4, minPoems := 3, backendBase := true, fetch := .reject }

/-- rebuild-journal discovery-path environment in which one of the two
eligible authors' synthesis fetches rejects. -/
def envC6b : EnvRJ :=
  { single := none, force := false, discoveryErr := none,
    authors := ["a1", "a2"], updatedMap := fun _ => none, now := 100000000,
    cooldownHours := 24,
    outcomes := fun id => if id == "a1" then .reject else .resolve 200 5 none }

/-! ## netlify/functions/aggiorna-journal/index.ts (second handler)

Another deployed version of the group-synthesis handler, whose provider
wrapper `callOpenAIForJournal` (lines 265-281) handles unparseable content
differently from part_004. -/

/-- Outcome of the completions call inside `callOpenAIForJournal`:
`throw` when the promise rejects; `ok text parse` when it resolves with
trimmed message content `text` (the empty string when the content field
is absent) whose `JSON.parse` outcome is `parse` (`none` when the parse
throws, as it does on the empty string). -/
inductive ProviderCallIdx where
  | throw
  | ok (text : String) (parse : Option Json)

/-- `callOpenAIForJournal` from aggiorna-journal/index.ts lines 265-281:
a thrown completions call propagates; resolved content is `JSON.parse`d,
and a parse failure is caught into the single-key object
`{descrizione_autore: text}` holding the raw text. -/
def callOpenAIForJournal : ProviderCallIdx → Except Unit Json
  | .throw => .error ()
  | .ok text parse =>
    .ok (match parse with
      | some j => j
      | none => .obj [("descrizione_autore", .str text)])

/-- The catch-block fallback journal of aggiorna-journal/index.ts
lines 365-369. -/
def fallbackJournalIdx : Json :=
  .obj [("descrizione_autore", .str "Profilo in aggiornamento: riprova più tardi."),
        ("profilo_poetico",
          .obj [("temi_ricorrenti", .arr []), ("stile", .str ""),
                ("evoluzione", .str "")]),
        ("ultime_opere_rilevanti", .arr [])]

/-- The fixed journal schema demanded by `buildPrompt` in
aggiorna-journal/index.ts (lines 244-263): `descrizione_autore` a string,
`profilo_poetico` an object with a string array `temi_ricorrenti` and
strings `stile` and `evoluzione`, and `ultime_opere_rilevanti` an
array. -/
def journalWellFormedIdx (j : Json) : Bool :=
  isStrField (getField j "descrizione_autore") &&
  (match getField j "profilo_poetico" with
   | some p =>
     isStrArrField (getField p "temi_ricorrenti") &&
     isStrField (getField p "stile") && isStrField (getField p "evoluzione")
   | none => false) &&
  (match getField j "ultime_opere_rilevanti" with
   | some (.arr _) => true
   | _ => false)

/-- Step 4 of the aggiorna-journal/index.ts handler (lines 357-371): the
journal that will be written — the result of `callOpenAIForJournal`, or
the catch-block fallback when that call throws.  There is no falsiness
check in this variant: a resolved result is written unmodified. -/
def synthesisJournalIdx (p : ProviderCallIdx) : Json :=
  match callOpenAIForJournal p with
  | .ok j => j
  | .error _ => fallbackJournalIdx

/-- Environment of the aggiorna-journal/index.ts handler (lines 299-396):
the author-id validity, the store outcomes in program order (this
variant's profile fetch throws on error, unlike part_004's soft-fail),
the provider outcome, the QR generation outcome, and the
`new Date().toISOString()` reading of the update. -/
structure EnvAJ where
  isUuidAuthor : Bool
  countThrow : Bool
  count : Nat
  minPoems : Nat
  poemsThrow : Bool
  profileThrow : Bool
  prevJournal : Option Json
  existingQr : Option String
  publicBase : Bool
  dryRun : Bool
  provider : ProviderCallIdx
  qrGen : Option String
  updThrow : Bool
  nowUpdate : String

/-- Observable outcome of the aggiorna-journal/index.ts handler. -/
structure OutAJ where
  status : Nat
  triggered : Option Bool
  updated : Option Bool
  providerCalled : Bool
  updateCall : Option (Json × String × Option String)

/-- The aggiorna-journal/index.ts handler (lines 299-396).  An invalid
author UUID is a 400; a failed count, poems or profile query throws
(500); a count below the threshold returns 200 `triggered:false` before
any further read or write; `dry_run` stops before the provider; otherwise
the journal of `synthesisJournalIdx` is computed, `maybeGenerateQr` runs
(only with a configured public base URL and no existing QR), and the
`profiles` update is issued with `poetic_journal` and `last_updated` (a
failed update throws after the call was issued). -/
def handlerAJ (e : EnvAJ) : OutAJ :=
  if !e.isUuidAuthor then ⟨400, none, none, false, none⟩
  else if e.countThrow then ⟨500, none, none, false, none⟩
  else if e.count < e.minPoems then ⟨200, some false, none, false, none⟩
  else if e.poemsThrow then ⟨500, none, none, false, none⟩
  else if e.profileThrow then ⟨500, none, none, false, none⟩
  else if e.dryRun then ⟨200, some true, none, false, none⟩
  else
    let newJournal := synthesisJournalIdx e.provider
    let qr : Option String :=
      if e.publicBase && e.existingQr.isNone then e.qrGen else none
    let upd := some (newJournal, e.nowUpdate, qr)
    if e.updThrow then ⟨500, none, none, true, upd⟩
    else ⟨200, some true, some true, true, upd⟩

/-- aggiorna-journal/index.ts environment in which the provider call
resolves with unparseable content while every store step succeeds. -/
def envC2x : EnvAJ :=
  { isUuidAuthor := true, countThrow := false, count := 3, minPoems := 3,
    poemsThrow := false, profileThrow := false, prevJournal := none,
    existingQr := none, publicBase := false, dryRun := false,
    provider := .ok "not json" none, qrGen := none, updThrow := false,
    nowUpdate := "2026-01-01T00:00:02Z" }

/-- aggiorna-journal/index.ts environment in which the provider call
throws while every store step succeeds. -/
def envC2b : EnvAJ :=
  { isUuidAuthor := true, countThrow := false, count := 3, minPoems := 3,
    poemsThrow := false, profileThrow := false, prevJournal := none,
    existingQr := none, publicBase := false, dryRun := false,
    provider := .throw, qrGen := none, updThrow := false,
    nowUpdate := "2026-01-01T00:00:02Z" }

/-! ## Claims -/

/-- C1, counterexample.  The claim states that the cascade into group
synthesis is triggered iff `count >= T` and `count mod T == 0`, in
particular never at count 4 for T = 3.  In the forza-analisi/index.ts
variant of the item-analysis handler, `maybeTriggerJournal` triggers at
count 4 with threshold 3 (valid author UUID, configured backend, resolving
fetch) even though 4 is not a multiple of 3. -/
theorem C1_counterexample :
    (maybeTriggerJournal true 4 3 true (.resolve 200 none)).triggered = true ∧
    jsModEqZero 4 3 = false := by
  constructor
  · rfl
  · decide

/-- C1, amended.  The part_000 item-analysis handler dispatches the
cascade, and reports it in its success response, exactly iff the count
query succeeded, `count >= T` and `count mod T == 0` (for T = 3: at counts
3 and 6, not at 1, 2, 4, 5); the forza-analisi/index.ts variant's
`maybeTriggerJournal` instead triggers iff the author id is a valid UUID,
the backend base is configured, `count >= T` and the dispatch fetch does
not reject — with no multiple-of-T condition. -/
theorem C1_amended_trigger_rule :
    (∀ (e : Env000) (ap al pp : Json),
      (e.authorId == "") = false → (e.poemId == "") = false →
      (e.poemText == "") = false → e.upsertErr = false →
      askGPT e.psico = .ok ap → askGPT e.letterario = .ok al →
      askGPT e.profilo = .ok pp → e.updateErr = false →
      (handler000 e).cascadeDispatched = cascadeCond e.countErr e.count e.minPoems ∧
      ((handler000 e).status = 200 →
        (handler000 e).journalTriggered = cascadeCond e.countErr e.count e.minPoems)) ∧
    (cascadeCond false 3 3 = true ∧ cascadeCond false 6 3 = true ∧
     cascadeCond false 1 3 = false ∧ cascadeCond false 2 3 = false ∧
     cascadeCond false 4 3 = false ∧ cascadeCond false 5 3 = false) ∧
    (∀ (uuid : Bool) (c m : Nat) (bb : Bool) (f : FetchOutcome),
      (maybeTriggerJournal uuid c m bb f).triggered =
        (uuid && decide (m ≤ c) && bb && !fetchRejects f)) := by
  refine ⟨?_, by decide, ?_⟩
  · intro e ap al pp h1 h2 h3 h4 hp hl hpr h5
    cases hc : cascadeCond e.countErr e.count e.minPoems <;>
      cases hf : e.cascadeFetch <;>
        simp [handler000, h1, h2, h3, h4, hp, hl, hpr, h5, hc, hf, errOut000]
  · intro uuid c m bb f
    rcases Nat.lt_or_ge c m with h | h
    · cases uuid <;> cases bb <;> cases f <;>
        simp [maybeTriggerJournal, fetchRejects, h, Nat.not_le.mpr h]
    · have h' : ¬ c < m := Nat.not_lt.mpr h
      cases uuid <;> cases bb <;> cases f <;>
        simp [maybeTriggerJournal, fetchRejects, h', h]

/-- C1, witness for the amended theorem at the concrete environment
`envBenign` (count 3, threshold 3) and at `maybeTriggerJournal` with
count 4. -/
theorem C1_amended_trigger_rule_witness :
    ((envBenign.authorId == "") = false ∧ (envBenign.poemId == "") = false ∧
      (envBenign.poemText == "") = false ∧ envBenign.upsertErr = false ∧
      envBenign.updateErr = false ∧
      (handler000 envBenign).cascadeDispatched =
        cascadeCond envBenign.countErr envBenign.count envBenign.minPoems) ∧
    (maybeTriggerJournal true 5 3 true .reject).triggered =
      (true && decide (3 ≤ 5) && true && !fetchRejects .reject) :=
  ⟨⟨rfl, rfl, rfl, rfl, rfl,
      (C1_amended_trigger_rule.1 envBenign (.obj [("k", .str "v")])
        (.obj [("k", .str "v")]) (.obj [("k", .str "v")])
        rfl rfl rfl rfl rfl rfl rfl rfl).1⟩,
    C1_amended_trigger_rule.2.2 true 5 3 true .reject⟩

/-- The canned fallback journal satisfies the fixed schema for every
timestamp. -/
theorem journalWellFormed_fallback : ∀ s, journalWellFormed (fallbackJournal s) = true :=
  fun _ => rfl

/-- A schema-valid journal is a JSON object, hence truthy. -/
theorem jsTruthy_of_wellFormed : ∀ j, journalWellFormed j = true → j.jsTruthy = true := by
  intro j hj
  cases j <;> first
    | rfl
    | (exfalso; simp [journalWellFormed, getField, isStrField] at hj)

/-- C2, counterexample.  The claim states the journal written into the
group state is never malformed — either the provider's synthesis result
conforming to the fixed schema or the canned schema-valid fallback.  In
the cited aggiorna-journal/index.ts variant, a provider call that
resolves with unparseable content is caught inside
`callOpenAIForJournal` into `{descrizione_autore: text}`, which the
handler writes unmodified: at `envC2x` the run completes (200) and the
written journal lacks the required keys — it is neither schema-conforming
nor the canned fallback. -/
theorem C2_counterexample :
    (handlerAJ envC2x).status = 200 ∧
    (handlerAJ envC2x).updateCall =
      some (.obj [("descrizione_autore", .str "not json")],
        "2026-01-01T00:00:02Z", none) ∧
    journalWellFormedIdx (.obj [("descrizione_autore", .str "not json")]) = false ∧
    synthesisJournalIdx envC2x.provider ≠ fallbackJournalIdx := by
  refine ⟨rfl, rfl, rfl, ?_⟩
  intro h
  have h1 : journalWellFormedIdx (synthesisJournalIdx envC2x.provider) = false := rfl
  rw [h] at h1
  have h2 : journalWellFormedIdx fallbackJournalIdx = true := rfl
  rw [h1] at h2
  exact Bool.false_ne_true h2

/-- C2, amended.  In every synthesis run that reaches the provider step,
the journal written into the group state is never absent and the profile
update (journal and `last_updated`) is still issued even when the
provider call throws.  In the part_004 handler the journal is either the
provider's parsed synthesis result or the canned schema-valid fallback
(so it conforms whenever the provider result does).  In the
aggiorna-journal/index.ts variant a thrown provider call substitutes that
variant's canned schema-valid fallback, but a call resolving with
unparseable content writes the single-key object
`{descrizione_autore: text}` — not the fallback and not
schema-conforming. -/
theorem C2_amended_journal_fallback :
    (∀ (e : Env004), (e.authorId == "") = false → e.countThrow = false →
      e.minPoems ≤ e.count.getD 0 → e.poemsThrow = false →
      (e.poemsLen == 0) = false → e.dryRun = false → e.updThrow = false →
      ((handler004 e).status = 200 ∧
       (handler004 e).providerCalled = true ∧
       (handler004 e).updateCall =
         some (synthesisJournal e.provider e.nowFallback, e.nowUpdate,
           if e.hasQrColumn && e.publicBase && e.existingQr.isNone then e.qrGen
           else none) ∧
       ((∃ j, e.provider = .ok (some (some j)) ∧ j.jsTruthy = true ∧
           synthesisJournal e.provider e.nowFallback = j) ∨
         synthesisJournal e.provider e.nowFallback = fallbackJournal e.nowFallback) ∧
       journalWellFormed (fallbackJournal e.nowFallback) = true ∧
       (e.provider = .throw →
         synthesisJournal e.provider e.nowFallback = fallbackJournal e.nowFallback) ∧
       (∀ j, e.provider = .ok (some (some j)) → journalWellFormed j = true →
         journalWellFormed (synthesisJournal e.provider e.nowFallback) = true))) ∧
    (∀ (e : EnvAJ), e.isUuidAuthor = true → e.countThrow = false →
      e.minPoems ≤ e.count → e.poemsThrow = false → e.profileThrow = false →
      e.dryRun = false → e.updThrow = false →
      ((handlerAJ e).status = 200 ∧
       (handlerAJ e).providerCalled = true ∧
       (handlerAJ e).updateCall =
         some (synthesisJournalIdx e.provider, e.nowUpdate,
           if e.publicBase && e.existingQr.isNone then e.qrGen else none) ∧
       (e.provider = .throw → synthesisJournalIdx e.provider = fallbackJournalIdx) ∧
       journalWellFormedIdx fallbackJournalIdx = true ∧
       (∀ (text : String) (parse : Option Json), e.provider = .ok text parse →
         synthesisJournalIdx e.provider =
           (match parse with
            | some j => j
            | none => Json.obj [("descrizione_autore", .str text)])))) := by
  constructor
  · intro e h1 h2 h3 h4 h5 h6 h7
    have h3' : ¬ e.count.getD 0 < e.minPoems := Nat.not_lt.mpr h3
    refine ⟨?_, ?_, ?_, ?_, journalWellFormed_fallback _, ?_, ?_⟩
    · simp [handler004, h1, h2, h3', h4, h5, h6, h7]
    · simp [handler004, h1, h2, h3', h4, h5, h6, h7]
    · simp [handler004, h1, h2, h3', h4, h5, h6, h7]
    · cases hp : e.provider with
      | throw => exact Or.inr (by simp [synthesisJournal, hp])
      | ok c =>
        cases c with
        | none => exact Or.inr (by simp [synthesisJournal, safeJson, hp])
        | some pc =>
          cases pc with
          | none => exact Or.inr (by simp [synthesisJournal, safeJson, hp])
          | some j =>
            cases ht : j.jsTruthy with
            | true =>
              exact Or.inl ⟨j, rfl, ht, by simp [synthesisJournal, safeJson, hp, ht]⟩
            | false => exact Or.inr (by simp [synthesisJournal, safeJson, hp, ht])
    · intro hp
      simp [synthesisJournal, hp]
    · intro j hp hj
      simp [synthesisJournal, hp, safeJson, jsTruthy_of_wellFormed j hj, hj]
  · intro e h1 h2 h3 h4 h5 h6 h7
    have h3' : ¬ e.count < e.minPoems := Nat.not_lt.mpr h3
    refine ⟨?_, ?_, ?_, ?_, rfl, ?_⟩
    · simp [handlerAJ, h1, h2, h3', h4, h5, h6, h7]
    · simp [handlerAJ, h1, h2, h3', h4, h5, h6, h7]
    · simp [handlerAJ, h1, h2, h3', h4, h5, h6, h7]
    · intro hp
      simp [synthesisJournalIdx, callOpenAIForJournal, hp]
    · intro text parse hp
      cases parse <;> simp [synthesisJournalIdx, callOpenAIForJournal, hp]

/-- C2, witness for the amended theorem at `envC2` (part_004, provider
throws) and `envC2b` (aggiorna-journal/index.ts, provider throws). -/
theorem C2_amended_journal_fallback_witness :
    (((envC2.authorId == "") = false ∧ envC2.countThrow = false ∧
      envC2.minPoems ≤ envC2.count.getD 0 ∧ envC2.provider = .throw) ∧
    ((handler004 envC2).status = 200 ∧
     (handler004 envC2).providerCalled = true ∧
     (handler004 envC2).updateCall =
       some (synthesisJournal envC2.provider envC2.nowFallback, envC2.nowUpdate,
         if envC2.hasQrColumn && envC2.publicBase && envC2.existingQr.isNone then
           envC2.qrGen
         else none) ∧
     ((∃ j, envC2.provider = .ok (some (some j)) ∧ j.jsTruthy = true ∧
         synthesisJournal envC2.provider envC2.nowFallback = j) ∨
       synthesisJournal envC2.provider envC2.nowFallback =
         fallbackJournal envC2.nowFallback) ∧
     journalWellFormed (fallbackJournal envC2.nowFallback) = true ∧
     (envC2.provider = .throw →
       synthesisJournal envC2.provider envC2.nowFallback =
         fallbackJournal envC2.nowFallback) ∧
     (∀ j, envC2.provider = .ok (some (some j)) → journalWellFormed j = true →
       journalWellFormed (synthesisJournal envC2.provider envC2.nowFallback) = true))) ∧
    ((envC2b.isUuidAuthor = true ∧ envC2b.countThrow = false ∧
      envC2b.minPoems ≤ envC2b.count ∧ envC2b.provider = .throw) ∧
    ((handlerAJ envC2b).status = 200 ∧
     (handlerAJ envC2b).providerCalled = true ∧
     (handlerAJ envC2b).updateCall =
       some (synthesisJournalIdx envC2b.provider, envC2b.nowUpdate,
         if envC2b.publicBase && envC2b.existingQr.isNone then envC2b.qrGen
         else none) ∧
     synthesisJournalIdx envC2b.provider = fallbackJournalIdx ∧
     journalWellFormedIdx fallbackJournalIdx = true)) :=
  ⟨⟨⟨rfl, rfl, by decide, rfl⟩,
    C2_amended_journal_fallback.1 envC2 rfl rfl (by decide) rfl rfl rfl rfl⟩,
   ⟨⟨rfl, rfl, by decide, rfl⟩,
    (C2_amended_journal_fallback.2 envC2b rfl rfl (by decide) rfl rfl rfl rfl).1,
    (C2_amended_journal_fallback.2 envC2b rfl rfl (by decide) rfl rfl rfl rfl).2.1,
    (C2_amended_journal_fallback.2 envC2b rfl rfl (by decide) rfl rfl rfl rfl).2.2.1,
    (C2_amended_journal_fallback.2 envC2b rfl rfl (by decide) rfl rfl rfl rfl).2.2.2.1 rfl,
    rfl⟩⟩

/-- C8: a part_004 synthesis invocation with a present author id whose
successful count is below the threshold answers 200 with
`triggered:false` and the not-enough-items reason, calls no provider, and
issues no write (this handler version writes no history at all, so
history is trivially unchanged). -/
theorem C8_below_threshold_safe :
    ∀ (e : Env004), (e.authorId == "") = false → e.countThrow = false →
      e.count.getD 0 < e.minPoems →
      handler004 e =
        ⟨200, some false, some (notEnoughReason (e.count.getD 0) e.minPoems),
          false, none, none, false⟩ := by
  intro e h1 h2 h3
  simp [handler004, h1, h2, h3]

/-- C8, witness at `envC8` (two poems against a threshold of three). -/
theorem C8_below_threshold_safe_witness :
    ((envC8.authorId == "") = false ∧ envC8.countThrow = false ∧
      envC8.count.getD 0 < envC8.minPoems) ∧
    handler004 envC8 =
      ⟨200, some false, some (notEnoughReason (envC8.count.getD 0) envC8.minPoems),
        false, none, none, false⟩ :=
  ⟨⟨rfl, rfl, by decide⟩, C8_below_threshold_safe envC8 rfl rfl (by decide)⟩

/-- `askGPT` consults exactly the first one or two attempt outcomes. -/
theorem askGPT_eq (f : Nat → Attempt) :
    askGPT f =
      match withTimeout (f 0) askGPTTimeoutMs with
      | .ok c => .ok (parseContent c)
      | .fail =>
        match withTimeout (f 1) askGPTTimeoutMs with
        | .ok c => .ok (parseContent c)
        | .fail => .error () := by
  cases h0 : withTimeout (f 0) askGPTTimeoutMs <;>
    cases h1 : withTimeout (f 1) askGPTTimeoutMs <;>
      simp [askGPT, withRetry, h0, h1]

/-- C3, counterexample.  The claim states that when both attempts of a
task fail, that task's result degrades to an empty object and the overall
operation still succeeds.  In part_000, `withRetry` rethrows after the
second failure, `askGPT` does not catch it, and the rejection of
`Promise.all` reaches the top-level catch: at `envC3` (both attempts of
the first task fail, everything else succeeds) the handler answers 500,
not success. -/
theorem C3_counterexample :
    askGPT failAttempt = .error () ∧
    (handler000 envC3).status = 500 ∧ (handler000 envC3).ok = false :=
  ⟨rfl, rfl, rfl⟩

/-- C3, amended.  Each per-item provider call is wrapped in a 45000 ms
timeout (an attempt whose promise has not settled by the deadline counts
as a failure) and retried exactly once: the outcome depends only on the
first two attempts, a first success is used without retry, a second
success after a first failure is used, and two failures make `askGPT`
rethrow — in which case the handler returns a 500 failure instead of
degrading that task to an empty object. -/
theorem C3_amended_retry_timeout :
    askGPTTimeoutMs = 45000 ∧
    (∀ a : Attempt, askGPTTimeoutMs ≤ a.dur → withTimeout a askGPTTimeoutMs = .fail) ∧
    (∀ f g : Nat → Attempt,
      withTimeout (f 0) askGPTTimeoutMs = withTimeout (g 0) askGPTTimeoutMs →
      withTimeout (f 1) askGPTTimeoutMs = withTimeout (g 1) askGPTTimeoutMs →
      askGPT f = askGPT g) ∧
    (∀ (f : Nat → Attempt) (c : Option (Option Json)),
      withTimeout (f 0) askGPTTimeoutMs = .ok c → askGPT f = .ok (parseContent c)) ∧
    (∀ (f : Nat → Attempt) (c : Option (Option Json)),
      withTimeout (f 0) askGPTTimeoutMs = .fail →
      withTimeout (f 1) askGPTTimeoutMs = .ok c → askGPT f = .ok (parseContent c)) ∧
    (∀ f : Nat → Attempt, withTimeout (f 0) askGPTTimeoutMs = .fail →
      withTimeout (f 1) askGPTTimeoutMs = .fail → askGPT f = .error ()) ∧
    (∀ e : Env000, (e.authorId == "") = false → (e.poemId == "") = false →
      (e.poemText == "") = false → e.upsertErr = false →
      askGPT e.psico = .error () →
      (handler000 e).status = 500 ∧ (handler000 e).ok = false) := by
  refine ⟨rfl, ?_, ?_, ?_, ?_, ?_, ?_⟩
  · intro a h
    simp [withTimeout, h]
  · intro f g hf0 hf1
    rw [askGPT_eq f, askGPT_eq g, hf0, hf1]
  · intro f c h0
    rw [askGPT_eq f, h0]
  · intro f c h0 h1
    rw [askGPT_eq f, h0, h1]
  · intro f h0 h1
    rw [askGPT_eq f, h0, h1]
  · intro e h1 h2 h3 h4 hp
    cases hl : askGPT e.letterario <;> cases hpr : askGPT e.profilo <;>
      simp [handler000, h1, h2, h3, h4, hp, hl, hpr, errOut000]

/-- C3, witness for the amended theorem: a 50 s attempt times out, a
doubly failing stream makes `askGPT` rethrow, and at `envC3` the handler
answers 500. -/
theorem C3_amended_retry_timeout_witness :
    (askGPTTimeoutMs ≤ (Attempt.mk 50000 (.ok none)).dur ∧
      withTimeout ⟨50000, .ok none⟩ askGPTTimeoutMs = .fail) ∧
    (withTimeout (failAttempt 0) askGPTTimeoutMs = .fail ∧
      withTimeout (failAttempt 1) askGPTTimeoutMs = .fail ∧
      askGPT failAttempt = .error ()) ∧
    ((envC3.authorId == "") = false ∧ askGPT envC3.psico = .error () ∧
      (handler000 envC3).status = 500 ∧ (handler000 envC3).ok = false) :=
  ⟨⟨by decide, C3_amended_retry_timeout.2.1 ⟨50000, .ok none⟩ (by decide)⟩,
   ⟨rfl, rfl, C3_amended_retry_timeout.2.2.2.2.2.1 failAttempt rfl rfl⟩,
   ⟨rfl, rfl,
     (C3_amended_retry_timeout.2.2.2.2.2.2 envC3 rfl rfl rfl rfl rfl).1,
     (C3_amended_retry_timeout.2.2.2.2.2.2 envC3 rfl rfl rfl rfl rfl).2⟩⟩

/-- C4, counterexample.  The claim states that a failure of the
dispatched synthesis call does not change the item-analysis handler's own
success status.  In part_000 the cascade `fetch` is awaited outside any
try/catch: at `envC4` (cascade condition holds, fetch rejects with a
network error) the dispatch happens and the handler answers 500. -/
theorem C4_counterexample :
    (handler000 envC4).cascadeDispatched = true ∧
    (handler000 envC4).status = 500 :=
  ⟨rfl, rfl⟩

/-- C4, amended.  In part_000 a cascade dispatch whose fetch resolves —
with any HTTP status and any (possibly malformed) body — leaves the
handler's success response intact, but a rejected fetch propagates to the
top-level catch (500-counterexample above).  In forza-analisi/index.ts
all dispatch failures are caught inside `maybeTriggerJournal` (a rejected
fetch yields `triggered:false`), and the handler answers 200 whatever the
fetch outcome. -/
theorem C4_amended_cascade_failure :
    (∀ (e : Env000) (ap al pp : Json) (st : Nat) (b : Option Json),
      (e.authorId == "") = false → (e.poemId == "") = false →
      (e.poemText == "") = false → e.upsertErr = false →
      askGPT e.psico = .ok ap → askGPT e.letterario = .ok al →
      askGPT e.profilo = .ok pp → e.updateErr = false →
      e.cascadeFetch = .resolve st b →
      (handler000 e).status = 200 ∧ (handler000 e).ok = true) ∧
    (∀ (uuid : Bool) (c m : Nat) (bb : Bool),
      (maybeTriggerJournal uuid c m bb .reject).triggered = false) ∧
    (∀ e : EnvIdx, (e.poemId == "") = false → e.upsertThrow = false →
      e.providerThrow = false → e.updateThrow = false → e.countThrow = false →
      (handlerIdx e).status = 200 ∧ (handlerIdx e).ok = true) := by
  refine ⟨?_, ?_, ?_⟩
  · intro e ap al pp st b h1 h2 h3 h4 hp hl hpr h5 hf
    cases hc : cascadeCond e.countErr e.count e.minPoems <;>
      simp [handler000, h1, h2, h3, h4, hp, hl, hpr, h5, hf, hc]
  · intro uuid c m bb
    cases uuid <;> cases bb <;> rcases Nat.lt_or_ge c m with h | h <;>
      simp [maybeTriggerJournal, h, Nat.not_lt.mpr h]
  · intro e h1 h2 h3 h4 h5
    simp [handlerIdx, h1, h2, h3, h4, h5]

/-- C4, witness for the amended theorem at `envBenign` (resolving cascade
fetch) and `envIdxReject` (rejecting cascade fetch, caught). -/
theorem C4_amended_cascade_failure_witness :
    (envBenign.cascadeFetch = FetchOutcome.resolve 200 (some (.obj [])) ∧
      (handler000 envBenign).status = 200 ∧ (handler000 envBenign).ok = true) ∧
    (maybeTriggerJournal true 7 3 true .reject).triggered = false ∧
    ((envIdxReject.poemId == "") = false ∧ envIdxReject.fetch = .reject ∧
      (handlerIdx envIdxReject).status = 200 ∧ (handlerIdx envIdxReject).ok = true) :=
  ⟨⟨rfl,
     C4_amended_cascade_failure.1 envBenign (.obj [("k", .str "v")])
       (.obj [("k", .str "v")]) (.obj [("k", .str "v")]) 200 (some (.obj []))
       rfl rfl rfl rfl rfl rfl rfl rfl rfl⟩,
   C4_amended_cascade_failure.2.1 true 7 3 true,
   ⟨rfl, rfl,
     (C4_amended_cascade_failure.2.2 envIdxReject rfl rfl rfl rfl rfl).1,
     (C4_amended_cascade_failure.2.2 envIdxReject rfl rfl rfl rfl rfl).2⟩⟩

/-- C10: when a per-task provider call resolves but its content is not
parseable JSON, the task's result is the empty object, the empty object is
persisted as that task's analysis on the poem row, the response's
has-content flag for that task is false, and the handler still answers
200. -/
theorem C10_unparseable_degrades :
    ∀ e : Env000, (e.authorId == "") = false → (e.poemId == "") = false →
      (e.poemText == "") = false → e.upsertErr = false →
      withTimeout (e.psico 0) askGPTTimeoutMs = .ok (some none) →
      ∀ al pp : Json, askGPT e.letterario = .ok al → askGPT e.profilo = .ok pp →
      e.updateErr = false → fetchRejects e.cascadeFetch = false →
      (handler000 e).status = 200 ∧ (handler000 e).ok = true ∧
      (handler000 e).savedPsico = false ∧
      (handler000 e).analysesWritten = some (Json.obj [], al, pp) := by
  intro e h1 h2 h3 h4 hp0 al pp hl hpr h5 hf
  have hp : askGPT e.psico = .ok (Json.obj []) := by
    rw [askGPT_eq e.psico, hp0]
    rfl
  cases hfo : e.cascadeFetch with
  | reject => rw [hfo] at hf; exact absurd hf (by simp [fetchRejects])
  | resolve st b =>
    cases hc : cascadeCond e.countErr e.count e.minPoems <;>
      simp [handler000, h1, h2, h3, h4, hp, hl, hpr, h5, hc, hfo, hasKeys]

/-- C10, witness at `envC10` (first task resolves with unparseable
content). -/
theorem C10_unparseable_degrades_witness :
    ((envC10.authorId == "") = false ∧
      withTimeout (envC10.psico 0) askGPTTimeoutMs = .ok (some none) ∧
      fetchRejects envC10.cascadeFetch = false) ∧
    ((handler000 envC10).status = 200 ∧ (handler000 envC10).ok = true ∧
      (handler000 envC10).savedPsico = false ∧
      (handler000 envC10).analysesWritten =
        some (Json.obj [], Json.obj [("k", .str "v")], Json.obj [("k", .str "v")])) :=
  ⟨⟨rfl, rfl, rfl⟩,
    C10_unparseable_degrades envC10 rfl rfl rfl rfl rfl
      (Json.obj [("k", .str "v")]) (Json.obj [("k", .str "v")]) rfl rfl rfl rfl⟩

/-- C5: in the backfill cooldown filter, a candidate whose last-update
timestamp is absent or unparseable is treated as infinitely elapsed and
kept; without `force`, a candidate whose elapsed time is below the
cooldown window is excluded and recorded in the skipped list with reason
cooldown and its last-update value; with `force`, every candidate is
kept. -/
theorem C5_cooldown_filter :
    (∀ (force : Bool) (now cutoffMs : Int) (updatedMap : String → Option Int)
      (authors : List String) (id : String), id ∈ authors → updatedMap id = none →
      id ∈ eligibleFilter force now cutoffMs updatedMap authors) ∧
    (∀ (now cutoffMs : Int) (updatedMap : String → Option Int)
      (authors : List String) (id : String) (t : Int), id ∈ authors →
      updatedMap id = some t → now - t < cutoffMs →
      id ∉ eligibleFilter false now cutoffMs updatedMap authors ∧
      (⟨id, "cooldown", some t⟩ : SkipEntry) ∈
        skippedList false now cutoffMs updatedMap authors) ∧
    (∀ (now cutoffMs : Int) (updatedMap : String → Option Int)
      (authors : List String) (id : String), id ∈ authors →
      id ∈ eligibleFilter true now cutoffMs updatedMap authors) := by
  refine ⟨?_, ?_, ?_⟩
  · intro force now cutoffMs updatedMap authors id hmem hupd
    exact List.mem_filter.mpr ⟨hmem, by simp [msSince, elapsedExceeds, hupd]⟩
  · intro now cutoffMs updatedMap authors id t hmem hupd hlt
    have hpred :
        (false || elapsedExceeds (msSince now (updatedMap id)) cutoffMs) = false := by
      simp [msSince, elapsedExceeds, hupd]
      omega
    have hnotmem : id ∉ eligibleFilter false now cutoffMs updatedMap authors := by
      intro hin
      have := (List.mem_filter.mp hin).2
      rw [hpred] at this
      exact Bool.false_ne_true this
    have hskip : (⟨id, "cooldown", some t⟩ : SkipEntry) ∈
        skippedList false now cutoffMs updatedMap authors := by
      have hfil : id ∈ authors.filter
          (fun x => !((eligibleFilter false now cutoffMs updatedMap authors).contains x)) :=
        List.mem_filter.mpr ⟨hmem, by simpa using hnotmem⟩
      exact List.mem_map.mpr ⟨id, hfil, by simp [hupd]⟩
    exact ⟨hnotmem, hskip⟩
  · intro now cutoffMs updatedMap authors id hmem
    exact List.mem_filter.mpr ⟨hmem, by simp⟩

/-- C5, witness at `envC5`: the never-updated author is eligible, the
author updated one minute before a 24-hour cooldown is skipped with
reason cooldown, and with `force` it is eligible. -/
theorem C5_cooldown_filter_witness :
    (("stale" : String) ∈ envC5.authors ∧ envC5.updatedMap "stale" = none ∧
      ("stale" : String) ∈
        eligibleFilter false envC5.now (hoursToMs 24) envC5.updatedMap envC5.authors) ∧
    (("fresh" : String) ∈ envC5.authors ∧ envC5.updatedMap "fresh" = some 99940000 ∧
      envC5.now - 99940000 < (hoursToMs 24 : Int) ∧
      ("fresh" : String) ∉
        eligibleFilter false envC5.now (hoursToMs 24) envC5.updatedMap envC5.authors ∧
      (⟨"fresh", "cooldown", some 99940000⟩ : SkipEntry) ∈
        skippedList false envC5.now (hoursToMs 24) envC5.updatedMap envC5.authors) ∧
    (("fresh" : String) ∈
      eligibleFilter true envC5.now (hoursToMs 24) envC5.updatedMap envC5.authors) :=
  ⟨⟨by decide, rfl,
     C5_cooldown_filter.1 false envC5.now (hoursToMs 24) envC5.updatedMap
       envC5.authors "stale" (by decide) rfl⟩,
   ⟨by decide, rfl, by decide,
     (C5_cooldown_filter.2.1 envC5.now (hoursToMs 24) envC5.updatedMap
       envC5.authors "fresh" 99940000 (by decide) rfl (by decide)).1,
     (C5_cooldown_filter.2.1 envC5.now (hoursToMs 24) envC5.updatedMap
       envC5.authors "fresh" 99940000 (by decide) rfl (by decide)).2⟩,
   C5_cooldown_filter.2.2 envC5.now (hoursToMs 24) envC5.updatedMap
     envC5.authors "fresh" (by decide)⟩

/-- C6, counterexample.  The claim states a backfill run raises an error
response only when the discovery query fails.  At `envC6` — a
single-author run whose synthesis fetch rejects, with a healthy
discovery — the handler answers 500: the single-author `triggerJournal`
call is awaited outside any try/catch. -/
theorem C6_counterexample :
    envC6.discoveryErr = none ∧ (handlerRJ envC6).status = 500 :=
  ⟨rfl, rfl⟩

/-- C6, amended.  In a discovery-based (no group id) backfill run, a
failed discovery is the only source of a 500: with discovery healthy the
run answers 200 whatever the per-group outcomes, records one entry per
eligible group (a rejected synthesis fetch is caught into a 500-entry
with its error flag), and reports processed and ok counts over them.  In
a single-group run, a rejected synthesis fetch instead propagates to a
500 error response. -/
theorem C6_amended_backfill_errors :
    (∀ e : EnvRJ, e.single = none → ∀ m, e.discoveryErr = some m →
      (handlerRJ e).status = 500) ∧
    (∀ e : EnvRJ, e.single = none → e.discoveryErr = none →
      (handlerRJ e).status = 200 ∧ (handlerRJ e).ok = true) ∧
    (∀ e : EnvRJ, e.single = none → e.discoveryErr = none →
      e.authors.isEmpty = false →
      (eligibleFilter e.force e.now (hoursToMs e.cooldownHours) e.updatedMap
          e.authors).isEmpty = false →
      ((handlerRJ e).results =
        (eligibleFilter e.force e.now (hoursToMs e.cooldownHours) e.updatedMap
            e.authors).map (workerEntry e.outcomes) ∧
       (handlerRJ e).processed = some ((handlerRJ e).results).length ∧
       (handlerRJ e).okCount =
         some (((handlerRJ e).results.filter (fun r => r.status == 200)).length) ∧
       (∀ id, e.outcomes id = .reject →
         workerEntry e.outcomes id = ⟨id, 500, none, none, true⟩))) ∧
    (∀ (e : EnvRJ) (a : String), e.single = some a → e.outcomes a = .reject →
      (handlerRJ e).status = 500) := by
  refine ⟨?_, ?_, ?_, ?_⟩
  · intro e h m hd
    simp [handlerRJ, h, hd]
  · intro e h hd
    cases hA : e.authors.isEmpty <;>
      cases hT : (eligibleFilter e.force e.now (hoursToMs e.cooldownHours)
          e.updatedMap e.authors).isEmpty <;>
        simp [handlerRJ, h, hd, hA, hT]
  · intro e h hd hA hT
    refine ⟨?_, ?_, ?_, ?_⟩
    · simp [handlerRJ, h, hd, hA, hT]
    · simp [handlerRJ, h, hd, hA, hT]
    · simp [handlerRJ, h, hd, hA, hT]
    · intro id hid
      simp [workerEntry, hid]
  · intro e a h ho
    simp [handlerRJ, h, ho]

/-- C6, witness for the amended theorem at `envC6b` (discovery path, one
of two eligible authors rejects) and `envC6` (single-author run whose
fetch rejects). -/
theorem C6_amended_backfill_errors_witness :
    (envC6b.single = none ∧ envC6b.discoveryErr = none ∧
      (handlerRJ envC6b).status = 200 ∧ (handlerRJ envC6b).ok = true) ∧
    (envC6b.authors.isEmpty = false ∧
      (eligibleFilter envC6b.force envC6b.now (hoursToMs envC6b.cooldownHours)
          envC6b.updatedMap envC6b.authors).isEmpty = false ∧
      envC6b.outcomes "a1" = .reject ∧
      workerEntry envC6b.outcomes "a1" = ⟨"a1", 500, none, none, true⟩) ∧
    (envC6.single = some "a1" ∧ envC6.outcomes "a1" = .reject ∧
      (handlerRJ envC6).status = 500) :=
  ⟨⟨rfl, rfl,
     (C6_amended_backfill_errors.2.1 envC6b rfl rfl).1,
     (C6_amended_backfill_errors.2.1 envC6b rfl rfl).2⟩,
   ⟨by decide, by decide, rfl,
     (C6_amended_backfill_errors.2.2.1 envC6b rfl rfl (by decide) (by decide)).2.2.2
       "a1" rfl⟩,
   ⟨rfl, rfl, C6_amended_backfill_errors.2.2.2 envC6 "a1" rfl rfl⟩⟩

/-- Invariant of the rebuild-journal worker pool: the in-flight and idle
workers always number `min conc groups.length`, and the queue, in-flight
and done multisets together are exactly the initial groups. -/
theorem pool_invariant (conc : Nat) (gs : List String) :
    ∀ s : Pool, PoolReach (Pool.init conc gs) s →
      s.inflight.length + s.idle = min conc gs.length ∧
      ∀ a : String, s.queue.count a + s.inflight.count a + s.done.count a =
        gs.count a := by
  intro s h
  induction h with
  | refl => simp [Pool.init]
  | step hreach hstep ih =>
    obtain ⟨ih1, ih2⟩ := ih
    cases hstep with
    | take a q infl k d =>
      refine ⟨?_, ?_⟩
      · simp only [List.length_cons] at ih1 ⊢
        omega
      · intro x
        have hx := ih2 x
        simp only [List.count_cons] at hx ⊢
        omega
    | finish q l1 l2 a k d =>
      refine ⟨?_, ?_⟩
      · simp only [List.length_append, List.length_cons] at ih1 ⊢
        omega
      · intro x
        have hx := ih2 x
        simp only [List.count_append, List.count_cons] at hx ⊢
        omega

/-- C7: in every reachable state of the backfill worker pool, the number
of in-flight synthesis invocations is at most `min W C` (the worker count
strictly bounds in-flight calls regardless of the candidate count), and
when the eligible groups are distinct no group is held by two workers or
finished twice. -/
theorem C7_bounded_concurrency :
    ∀ (conc : Nat) (gs : List String) (s : Pool),
      PoolReach (Pool.init conc gs) s →
      s.inflight.length ≤ min conc gs.length ∧
      (gs.Nodup → ∀ a : String, s.inflight.count a + s.done.count a ≤ 1) := by
  intro conc gs s h
  obtain ⟨h1, h2⟩ := pool_invariant conc gs s h
  refine ⟨by omega, ?_⟩
  intro hn a
  have hc := h2 a
  have hle : gs.count a ≤ 1 := List.nodup_iff_count_le_one.mp hn a
  omega

/-- C7, witness: with two workers and the five distinct groups of the
spec's bounded-concurrency test, the state after two take steps has two
groups in flight, within the bound, and no group duplicated. -/
theorem C7_bounded_concurrency_witness :
    PoolReach (Pool.init 2 ["a", "b", "c", "d", "e"])
      ⟨["c", "d", "e"], ["b", "a"], 0, []⟩ ∧
    (["a", "b", "c", "d", "e"] : List String).Nodup ∧
    (Pool.mk ["c", "d", "e"] ["b", "a"] 0 []).inflight.length ≤
      min 2 (["a", "b", "c", "d", "e"] : List String).length ∧
    (Pool.mk ["c", "d", "e"] ["b", "a"] 0 []).inflight.count "a" +
      (Pool.mk ["c", "d", "e"] ["b", "a"] 0 []).done.count "a" ≤ 1 := by
  have hreach : PoolReach (Pool.init 2 ["a", "b", "c", "d", "e"])
      ⟨["c", "d", "e"], ["b", "a"], 0, []⟩ :=
    PoolReach.step
      (PoolReach.step PoolReach.refl
        (PoolStep.take "a" ["b", "c", "d", "e"] [] 1 []))
      (PoolStep.take "b" ["c", "d", "e"] ["a"] 0 [])
  have hmain := C7_bounded_concurrency 2 ["a", "b", "c", "d", "e"]
    ⟨["c", "d", "e"], ["b", "a"], 0, []⟩ hreach
  exact ⟨hreach, by decide, hmain.1, hmain.2 (by decide) "a"⟩

/-- Replacing every row keyed like `r` keeps exactly as many matching
rows, all equal to `r`. -/
theorem rowsWithId_map_replace (r : PoemRow) :
    ∀ store : List PoemRow,
      rowsWithId (store.map (fun s => if s.id == r.id then r else s)) r.id =
        List.replicate (rowsWithId store r.id).length r := by
  intro store
  induction store with
  | nil => rfl
  | cons s t ih =>
    unfold rowsWithId at ih ⊢
    cases h : s.id == r.id with
    | true =>
      have hr : List.filter (fun s => s.id == r.id)
          (r :: List.map (fun s => if s.id == r.id then r else s) t) =
          r :: List.filter (fun s => s.id == r.id)
            (List.map (fun s => if s.id == r.id then r else s) t) :=
        List.filter_cons_of_pos (beq_self_eq_true r.id)
      have hs : List.filter (fun x => x.id == r.id) (s :: t) =
          s :: List.filter (fun x => x.id == r.id) t :=
        List.filter_cons_of_pos h
      rw [List.map_cons, if_pos h, hr, hs, List.length_cons,
        List.replicate_succ, ih]
    | false =>
      rw [List.map_cons, if_neg (by simp [h]), List.filter_cons_of_neg (by simp [h]),
        List.filter_cons_of_neg (by simp [h]), ih]

/-- Upserting into a store holding at most one row with the same key
leaves exactly the upserted row under that key. -/
theorem rowsWithId_after_upsert (store : List PoemRow) (r : PoemRow)
    (h : (rowsWithId store r.id).length ≤ 1) :
    rowsWithId (storeUpsert store r) r.id = [r] := by
  unfold storeUpsert
  cases ha : store.any (fun s => s.id == r.id) with
  | false =>
    have hnone : rowsWithId store r.id = [] :=
      List.filter_eq_nil_iff.mpr (List.any_eq_false.mp ha)
    simp only [ha, Bool.false_eq_true, if_false]
    unfold rowsWithId at hnone ⊢
    rw [List.filter_append, hnone]
    simp [beq_self_eq_true]
  | true =>
    simp only [ha, if_true]
    rw [rowsWithId_map_replace r store]
    obtain ⟨x, hx, hpx⟩ := List.any_eq_true.mp ha
    have hpos : 0 < (rowsWithId store r.id).length :=
      List.length_pos_of_mem (List.mem_filter.mpr ⟨hx, hpx⟩)
    have hone : (rowsWithId store r.id).length = 1 := by omega
    rw [hone]
    rfl

/-- C9: two item-analysis submissions with the same `item_id` leave
exactly one stored row for that id, carrying the fields of the latest
submission — `upsertPoemMinimal` is an idempotent upsert on the item
key. -/
theorem C9_upsert_idempotent :
    ∀ (store : List PoemRow) (p a1 a2 : String) (t1 x1 t2 x2 : Option String)
      (n1 n2 : String),
      (rowsWithId store p).length ≤ 1 →
      rowsWithId
        (upsertPoemMinimal (upsertPoemMinimal store p a1 t1 x1 n1) p a2 t2 x2 n2) p
        = [⟨p, a2, t2, x2, n2⟩] := by
  intro store p a1 a2 t1 x1 t2 x2 n1 n2 h
  have h1 : rowsWithId (upsertPoemMinimal store p a1 t1 x1 n1) p =
      [⟨p, a1, t1, x1, n1⟩] :=
    rowsWithId_after_upsert store ⟨p, a1, t1, x1, n1⟩ h
  have h2 : (rowsWithId (upsertPoemMinimal store p a1 t1 x1 n1) p).length ≤ 1 := by
    rw [h1]
    exact Nat.le_refl 1
  exact rowsWithId_after_upsert _ ⟨p, a2, t2, x2, n2⟩ h2

/-- C9, witness: submitting the same poem twice into an empty store (and
into a store already holding an unrelated row) leaves one row with the
latest title and text. -/
theorem C9_upsert_idempotent_witness :
    (rowsWithId [PoemRow.mk "q" "b" none none "t0"] "p").length ≤ 1 ∧
    rowsWithId
      (upsertPoemMinimal
        (upsertPoemMinimal [PoemRow.mk "q" "b" none none "t0"] "p" "a"
          (some "first") (some "one") "t1")
        "p" "a" (some "second") (some "two") "t2") "p"
      = [⟨"p", "a", some "second", some "two", "t2"⟩] :=
  ⟨by decide,
    C9_upsert_idempotent [PoemRow.mk "q" "b" none none "t0"] "p" "a" "a"
      (some "first") (some "one") (some "second") (some "two") "t1" "t2"
      (by decide)⟩

end Diario
